import Mathlib

/-!
# Shallow embedding of the smartstroke-backend file-record core (src/server.js)

The source is an Express/Mongo backend in three concatenated variants of
`server.js`.  We model the parts the spec's claims are about:

* the naming policy (multer `diskStorage.filename`:
  `Date.now() + '-' + file.originalname.replace(/\s+/g, '_')`);
* the on-disk blob store (`fs.existsSync` / `fs.unlinkSync` / multer writes),
  with an explicit set of names on which `unlinkSync` raises, so that
  I/O-failure behaviour of the routes can be stated;
* the Mongo catalog: `User` documents (with `personalNotes`), `Classroom`
  documents (`code`, `students`, `files`), each file subdocument being
  `{ _id, filename, path, uploadDate }`;
* the routes the claims cite:
  `POST /upload/:classId` (variant 1, multer with a 10 MiB `fileSize` limit),
  `POST /upload-personal/:userId` (variant 2, multer with no limits),
  `POST /share-to-class` (variant 2),
  `DELETE /class/:classId/file/:fileId` (variant 2 with a classroom check,
  variant 3 without one),
  `PUT /class/:classId/file/:fileId` (variant 3),
  `POST /join-class`, and `GET /reset` (variant 1).

Express wraps each handler body in `try/catch`; a thrown exception (for
example calling `.files` on a `null` classroom, or `fs.unlinkSync` raising)
is answered with status 500.  We model a handler's outcome with `ApiResult`:
`ok`, `notFound` (404), `payloadTooLarge` (multer `LIMIT_FILE_SIZE`), and
`serverError` (500).
-/

set_option autoImplicit false

namespace SmartStroke

/-- Outcome of one HTTP request, as the routes answer it. -/
inductive ApiResult (α : Type) where
  | ok : α → ApiResult α
  | notFound : String → ApiResult α
  | payloadTooLarge : ApiResult α
  | serverError : ApiResult α
deriving Repr, DecidableEq

/-- A `files` / `personalNotes` subdocument:
`{ _id, filename, path, uploadDate }` (schema lines of `server.js`). -/
structure FileRec where
  fid : String
  filename : String
  path : String
  uploadDate : Nat
deriving Repr, DecidableEq

/-- A `User` document (variant 2 schema: `personalNotes` list of file
subdocuments). -/
structure UserDoc where
  uid : String
  personalNotes : List FileRec
deriving Repr, DecidableEq

/-- A `Classroom` document: join `code`, `students` id list, `files` list. -/
structure ClassroomDoc where
  cid : String
  code : String
  students : List String
  files : List FileRec
deriving Repr, DecidableEq

/-- The upload directory as a blob store: `blobs` maps a stored path to its
byte content; `ioFail` is the set of paths on which `fs.unlinkSync` raises
an `IOError` (a filesystem fault, not part of the happy path). -/
structure BlobStore where
  blobs : List (String × List Nat)
  ioFail : List String
deriving Repr, DecidableEq

/-- `fs.existsSync(path)` on the upload directory. -/
def BlobStore.existsName (s : BlobStore) (n : String) : Bool :=
  s.blobs.any (fun b => b.1 == n)

/-- Remove every blob stored under `n`. -/
def BlobStore.removeBlob (s : BlobStore) (n : String) : BlobStore :=
  { s with blobs := s.blobs.filter (fun b => b.1 != n) }

/-- `fs.unlinkSync(n)`: raises (`Except.error`) when the filesystem faults
on `n`, otherwise removes the blob. -/
def BlobStore.unlink (s : BlobStore) (n : String) : Except Unit BlobStore :=
  if n ∈ s.ioFail then Except.error () else Except.ok (s.removeBlob n)

/-- The delete routes' guard: `if (fs.existsSync(p)) fs.unlinkSync(p)`.
A name that does not exist is left alone without error. -/
def BlobStore.guardedUnlink (s : BlobStore) (n : String) : Except Unit BlobStore :=
  if s.existsName n then s.unlink n else Except.ok s

/-- multer writes an uploaded file into the store under `n`. -/
def BlobStore.put (s : BlobStore) (n : String) (bytes : List Nat) : BlobStore :=
  { s with blobs := s.blobs ++ [(n, bytes)] }

/-- Whole-server state: the Mongo collections plus the upload directory. -/
structure ServerState where
  users : List UserDoc
  classrooms : List ClassroomDoc
  store : BlobStore
deriving Repr, DecidableEq

/-- `User.findById` — the catalog lookup by user id. -/
def findUser (st : ServerState) (userId : String) : Option UserDoc :=
  st.users.find? (fun u => u.uid == userId)

/-- `Classroom.findById` — the catalog lookup by classroom id. -/
def findClassroom (st : ServerState) (classId : String) : Option ClassroomDoc :=
  st.classrooms.find? (fun c => c.cid == classId)

/-- `Classroom.findOne({ code })` — the catalog lookup by join code. -/
def findClassroomByCode (st : ServerState) (classCode : String) : Option ClassroomDoc :=
  st.classrooms.find? (fun c => c.code == classCode)

/-- `classroom.save()` after mutating a loaded document: persist the
document with this `cid` back into the collection. -/
def updateClassroom (st : ServerState) (c : ClassroomDoc) : ServerState :=
  { st with classrooms := st.classrooms.map (fun d => if d.cid == c.cid then c else d) }

/-- `user.save()` after mutating a loaded document. -/
def updateUser (st : ServerState) (u : UserDoc) : ServerState :=
  { st with users := st.users.map (fun d => if d.uid == u.uid then u else d) }

/-! ## Naming policy

`filename: (req, file, cb) => cb(null, Date.now() + '-' + file.originalname.replace(/\s+/g, '_'))`

The JavaScript regex class `\s` matches the whitespace characters below
(ECMAScript WhiteSpace ∪ LineTerminator; we list the ASCII ones plus the
Unicode space separators the engine recognises). -/

/-- The character class `\s` of the JavaScript regex in the filename
policy, by code point: space, tab, LF, VT, FF, CR, NBSP, U+1680, the
U+2000–U+200A spaces, LS, PS, U+202F, U+205F, U+3000 and the BOM. -/
def jsWhitespace (c : Char) : Bool :=
  c.toNat == 0x20 || c.toNat == 0x9 || c.toNat == 0xa || c.toNat == 0xb ||
  c.toNat == 0xc || c.toNat == 0xd || c.toNat == 0xa0 || c.toNat == 0x1680 ||
  (0x2000 ≤ c.toNat && c.toNat ≤ 0x200a) || c.toNat == 0x2028 ||
  c.toNat == 0x2029 || c.toNat == 0x202f || c.toNat == 0x205f ||
  c.toNat == 0x3000 || c.toNat == 0xfeff

/-- `originalname.replace(/\s+/g, '_')` on the character list: the regex
engine scans left to right; at the first character of a whitespace run it
emits the replacement `'_'`, the following characters of the same run are
part of the already-consumed match `\s+` and emit nothing; every character
outside a match is copied.  The boolean argument records whether the scan
is inside a run (`true` exactly when the previous character was matched). -/
def cleanCharsAux : Bool → List Char → List Char
  | _, [] => []
  | insideRun, c :: cs =>
    if jsWhitespace c then
      if insideRun then cleanCharsAux true cs
      else '_' :: cleanCharsAux true cs
    else c :: cleanCharsAux false cs

/-- `file.originalname.replace(/\s+/g, '_')`. -/
def cleanName (s : String) : String :=
  String.mk (cleanCharsAux false s.data)

/-- The full naming policy: `` `${Date.now()}-${cleanName}` ``
(`now` is the millisecond timestamp; `Nat.repr` is its decimal rendering). -/
def generateStorageName (originalName : String) (now : Nat) : String :=
  Nat.repr now ++ "-" ++ cleanName originalName

/-- Spec-side sanitisation, written from the claim's words, generic in the
whitespace class `p`: at a character in `p`, the **maximal run** of
`p`-characters starting there (the character together with `dropWhile p` of
the rest) is replaced by a single underscore; any other character is
kept. -/
def squashRunsWith (p : Char → Bool) : List Char → List Char
  | [] => []
  | c :: cs =>
    if p c then '_' :: squashRunsWith p (cs.dropWhile p)
    else c :: squashRunsWith p cs
termination_by l => l.length
decreasing_by
  · have hle : (cs.dropWhile p).length ≤ cs.length := by
      induction cs with
      | nil => simp
      | cons d ds ih =>
        by_cases h : p d
        · rw [List.dropWhile_cons_of_pos h]; exact Nat.le_succ_of_le ih
        · rw [List.dropWhile_cons_of_neg h]
    simpa using Nat.lt_succ_of_le hle
  · simp

/-- Spec-side sanitisation on strings: every maximal run of whitespace
replaced by a single underscore. -/
def squashRuns (s : String) : String :=
  String.mk (squashRunsWith jsWhitespace s.data)

/-! ## multer ingress

multer runs as route middleware, so the uploaded file is written to the
upload directory *before* the route handler body runs.  Variant 1
configures `limits: { fileSize: 10 * 1024 * 1024 }`; on an oversize payload
multer aborts with `LIMIT_FILE_SIZE` and removes the partial file, so no
blob is committed and the handler never runs.  Variants 2 and 3 configure
`multer({ storage })` with no limits, so any payload is written.  multer's
`file.path` is the stored file's path inside the upload directory. -/

/-- The 10 MiB `fileSize` cap of variant 1's multer configuration. -/
def uploadCap : Nat := 10 * 1024 * 1024

/-- multer ingress: write the payload under the policy-generated name,
unless a configured `fileSize` limit is exceeded (`Except.error` =
`LIMIT_FILE_SIZE`, nothing committed).  Returns the stored path
(`file.path`, inside `uploads/`). -/
def storedPathOf (originalName : String) (now : Nat) : String :=
  "uploads/" ++ generateStorageName originalName now

/-- The server state after multer has written the uploaded file. -/
def ingestState (st : ServerState) (originalName : String) (bytes : List Nat)
    (now : Nat) : ServerState :=
  { st with store := st.store.put (storedPathOf originalName now) bytes }

def multerIngest (st : ServerState) (limit : Option Nat) (originalName : String)
    (bytes : List Nat) (now : Nat) : Except Unit (ServerState × String) :=
  match limit with
  | some cap =>
    if bytes.length > cap then Except.error ()
    else Except.ok (ingestState st originalName bytes now, storedPathOf originalName now)
  | none => Except.ok (ingestState st originalName bytes now, storedPathOf originalName now)

/-! ## Routes -/

/-- `POST /upload/:classId` (variant 1): multer (with the 10 MiB limit)
ingests the file, then the handler looks up the classroom — 404 if absent,
with the blob already on disk — and appends
`{ filename: req.file.originalname, path: storedPath }` to
`classroom.files`.  `fid` stands for the Mongo `_id` the subdocument gets
at append time. -/
def uploadToClassroom (st : ServerState) (classId fid : String) (originalName : String)
    (bytes : List Nat) (now : Nat) : ServerState × ApiResult String :=
  match multerIngest st (some uploadCap) originalName bytes now with
  | Except.error _ => (st, ApiResult.payloadTooLarge)
  | Except.ok (st1, storedPath) =>
    match findClassroom st1 classId with
    | none => (st1, ApiResult.notFound "Class not found")
    | some c =>
      let r : FileRec := { fid := fid, filename := originalName, path := storedPath, uploadDate := now }
      (updateClassroom st1 { c with files := c.files ++ [r] }, ApiResult.ok storedPath)

/-- `POST /upload-personal/:userId` (variant 2): multer with **no** limits
ingests the file, then the handler looks up the user — 404 if absent — and
appends `{ filename: req.file.originalname, path: req.file.path }` to
`user.personalNotes`. -/
def uploadToPersonal (st : ServerState) (userId fid : String) (originalName : String)
    (bytes : List Nat) (now : Nat) : ServerState × ApiResult Unit :=
  match multerIngest st none originalName bytes now with
  | Except.error _ => (st, ApiResult.payloadTooLarge)
  | Except.ok (st1, storedPath) =>
    match findUser st1 userId with
    | none => (st1, ApiResult.notFound "User not found")
    | some u =>
      let r : FileRec := { fid := fid, filename := originalName, path := storedPath, uploadDate := now }
      (updateUser st1 { u with personalNotes := u.personalNotes ++ [r] }, ApiResult.ok ())

/-- `GET /personal-notes/:userId` (variant 2): read-only projection of the
user's personal list. -/
def listPersonalNotes (st : ServerState) (userId : String) : ApiResult (List FileRec) :=
  match findUser st userId with
  | none => ApiResult.notFound "User not found"
  | some u => ApiResult.ok u.personalNotes

/-- `POST /share-to-class` (variant 2): look up the classroom — 404 if
absent — and push `{ filename: fileData.filename, path: fileData.path,
uploadDate: new Date() }` onto `classroom.files`.  No blob is touched. -/
def shareToClass (st : ServerState) (classId fid : String) (fileData : FileRec)
    (now : Nat) : ServerState × ApiResult Unit :=
  match findClassroom st classId with
  | none => (st, ApiResult.notFound "Class not found")
  | some c =>
    let r : FileRec := { fid := fid, filename := fileData.filename, path := fileData.path, uploadDate := now }
    (updateClassroom st { c with files := c.files ++ [r] }, ApiResult.ok ())

/-- Shared body of the two delete routes, after the classroom document is
in hand: `findIndex` the file by `_id` (404 if absent), guarded unlink of
its `path` (a raised `IOError` escapes to the route's `catch`, answering
500 with the catalog untouched), then `splice` the record out and save. -/
def deleteFileFrom (st : ServerState) (c : ClassroomDoc) (fileId : String) :
    ServerState × ApiResult Unit :=
  match c.files.findIdx? (fun f => f.fid == fileId) with
  | none => (st, ApiResult.notFound "File not found")
  | some i =>
    let filePath := ((c.files.get? i).getD { fid := "", filename := "", path := "", uploadDate := 0 }).path
    match st.store.guardedUnlink filePath with
    | Except.error _ => (st, ApiResult.serverError)
    | Except.ok store1 =>
      let c1 : ClassroomDoc := { c with files := c.files.eraseIdx i }
      (updateClassroom { st with store := store1 } c1, ApiResult.ok ())

/-- `DELETE /class/:classId/file/:fileId` (variant 2): checks the classroom
first and answers 404 `"Class not found"` when it is absent. -/
def deleteClassFile (st : ServerState) (classId fileId : String) :
    ServerState × ApiResult Unit :=
  match findClassroom st classId with
  | none => (st, ApiResult.notFound "Class not found")
  | some c => deleteFileFrom st c fileId

/-- `DELETE /class/:classId/file/:fileId` (variant 3): no classroom check —
`classroom.files.findIndex` on a `null` classroom throws a `TypeError`,
which the `catch` answers with status 500. -/
def deleteClassFileNoCheck (st : ServerState) (classId fileId : String) :
    ServerState × ApiResult Unit :=
  match findClassroom st classId with
  | none => (st, ApiResult.serverError)
  | some c => deleteFileFrom st c fileId

/-- The per-record update `file.filename = newName` as the list map the
rename route performs on `classroom.files`. -/
def renameIn (files : List FileRec) (fileId newName : String) : List FileRec :=
  files.map (fun g => if g.fid == fileId then { g with filename := newName } else g)

/-- `PUT /class/:classId/file/:fileId` (variant 3): `classroom.files.id` on
a `null` classroom throws (caught as 500); an absent file answers 404; else
`file.filename = newName` and save — no other field, no blob touched. -/
def renameClassFile (st : ServerState) (classId fileId newName : String) :
    ServerState × ApiResult Unit :=
  match findClassroom st classId with
  | none => (st, ApiResult.serverError)
  | some c =>
    match c.files.find? (fun f => f.fid == fileId) with
    | none => (st, ApiResult.notFound "File not found")
    | some _ =>
      let c1 : ClassroomDoc := { c with files := renameIn c.files fileId newName }
      (updateClassroom st c1, ApiResult.ok ())

/-- `POST /join-class`: find the classroom by join code (404 if absent);
`if (!classroom.students.includes(studentId))` push the id and save, else
answer with the classroom unchanged. -/
def joinClass (st : ServerState) (studentId classCode : String) :
    ServerState × ApiResult Unit :=
  match findClassroomByCode st classCode with
  | none => (st, ApiResult.notFound "Class not found")
  | some c =>
    if c.students.contains studentId then (st, ApiResult.ok ())
    else (updateClassroom st { c with students := c.students ++ [studentId] }, ApiResult.ok ())

/-- `fs.readdirSync(uploadDir).forEach(f => fs.unlinkSync(...))` of the
variant-1 `/reset` route: unlink each name in turn; an `unlinkSync` that
raises escapes the `forEach` (there is no `try/catch` in this route), so
the names after the faulty one stay on disk. -/
def unlinkFold (s : BlobStore) : List String → BlobStore × Bool
  | [] => (s, true)
  | n :: ns =>
    if n ∈ s.ioFail then (s, false)
    else unlinkFold (s.removeBlob n) ns

/-- `GET /reset` (variant 1): `User.deleteMany({})`, `Classroom.deleteMany({})`,
then unlink every file in the upload directory.  An unlink failure after
the catalog wipe surfaces as an unhandled error (500). -/
def reset (st : ServerState) : ServerState × ApiResult Unit :=
  let st1 : ServerState := { st with users := [], classrooms := [] }
  let r := unlinkFold st1.store (st1.store.blobs.map (fun b => b.1))
  ({ st1 with store := r.1 }, if r.2 then ApiResult.ok () else ApiResult.serverError)

/-! ## Helper lemmas -/

/-- Saving a mutated document `c'` (same `_id` as the loaded `c`) makes a
subsequent lookup that found `c` find `c'`. -/
theorem find?_map_replace (l : List ClassroomDoc) (p : ClassroomDoc → Bool)
    (c c' : ClassroomDoc) (hc : l.find? p = some c) (hcid : c'.cid = c.cid)
    (hp : p c' = true) :
    (l.map (fun d => if d.cid == c'.cid then c' else d)).find? p = some c' := by
  induction l with
  | nil => simp at hc
  | cons d ds ih =>
    by_cases hd : p d
    · have hdc : c = d := by
        have := List.find?_cons_of_pos (l := ds) hd
        rw [this] at hc
        exact (Option.some.inj hc).symm
      have hcd : (d.cid == c'.cid) = true := by
        rw [hcid, hdc]
        exact beq_self_eq_true d.cid
      simp only [List.map_cons, hcd, if_true]
      rw [List.find?_cons_of_pos _ hp]
    · rw [List.find?_cons_of_neg _ hd] at hc
      by_cases hcd : (d.cid == c'.cid) = true
      · simp only [List.map_cons, hcd, if_true]
        rw [List.find?_cons_of_pos _ hp]
      · simp only [List.map_cons]
        rw [if_neg hcd, List.find?_cons_of_neg _ hd]
        exact ih hc

/-- A removed name no longer exists in the store. -/
theorem removeBlob_existsName (s : BlobStore) (n : String) :
    (s.removeBlob n).existsName n = false := by
  simp only [BlobStore.removeBlob, BlobStore.existsName, List.any_eq_false]
  intro b hb
  rcases List.mem_filter.mp hb with ⟨_, hne⟩
  simpa using hne

/-- A freshly put name exists in the store. -/
theorem put_existsName (s : BlobStore) (n : String) (bytes : List Nat) :
    (s.put n bytes).existsName n = true := by
  simp [BlobStore.put, BlobStore.existsName]

/-- `removeBlob` does not change the fault set. -/
theorem removeBlob_ioFail (s : BlobStore) (n : String) :
    (s.removeBlob n).ioFail = s.ioFail := rfl

/-! ## Claims -/

/-- Unfolding `squashRunsWith` at a head in the class. -/
theorem squashRunsWith_cons_pos (p : Char → Bool) (c : Char) (cs : List Char)
    (h : p c) :
    squashRunsWith p (c :: cs) = '_' :: squashRunsWith p (cs.dropWhile p) := by
  rw [squashRunsWith, if_pos h]

/-- Unfolding `squashRunsWith` at a head outside the class. -/
theorem squashRunsWith_cons_neg (p : Char → Bool) (c : Char) (cs : List Char)
    (h : ¬ p c) :
    squashRunsWith p (c :: cs) = c :: squashRunsWith p cs := by
  rw [squashRunsWith, if_neg h]

/-- The scan-state machine of the regex replace agrees with the
maximal-run description: in run-state `b = true` the remaining input is
read as if its leading whitespace had already been consumed. -/
theorem cleanCharsAux_eq_squashRunsWith (l : List Char) :
    ∀ b : Bool,
      cleanCharsAux b l =
        squashRunsWith jsWhitespace (if b then l.dropWhile jsWhitespace else l) := by
  induction l with
  | nil => intro b; cases b <;> simp [cleanCharsAux, squashRunsWith]
  | cons c cs ih =>
    intro b
    by_cases h : jsWhitespace c
    · cases b
      · rw [show cleanCharsAux false (c :: cs) = '_' :: cleanCharsAux true cs by
            simp [cleanCharsAux, h]]
        rw [if_neg (by simp), squashRunsWith_cons_pos jsWhitespace c cs h, ih true,
          if_pos rfl]
      · rw [show cleanCharsAux true (c :: cs) = cleanCharsAux true cs by
            simp [cleanCharsAux, h]]
        rw [if_pos rfl, List.dropWhile_cons_of_pos h, ih true, if_pos rfl]
    · cases b
      · rw [show cleanCharsAux false (c :: cs) = c :: cleanCharsAux false cs by
            simp [cleanCharsAux, h]]
        rw [if_neg (by simp), squashRunsWith_cons_neg jsWhitespace c cs h, ih false,
          if_neg (by simp)]
      · rw [show cleanCharsAux true (c :: cs) = c :: cleanCharsAux false cs by
            simp [cleanCharsAux, h]]
        rw [if_pos rfl, List.dropWhile_cons_of_neg h,
          squashRunsWith_cons_neg jsWhitespace c cs h, ih false, if_neg (by simp)]

/-- C5: for every `originalName` and timestamp `now`,
`generateStorageName originalName now` is the decimal millisecond
timestamp, then the separator `"-"`, then `originalName` with every maximal
run of whitespace replaced by a single underscore; as a pure function of
its two arguments it is deterministic. -/
theorem generateStorageName_spec (originalName : String) (now : Nat) :
    generateStorageName originalName now =
      Nat.repr now ++ "-" ++ squashRuns originalName := by
  unfold generateStorageName cleanName squashRuns
  rw [cleanCharsAux_eq_squashRunsWith originalName.data false]
  simp

/-- C6: `BlobStore` delete (the routes' `existsSync`-guarded `unlinkSync`)
is idempotent: on a name the filesystem does not fault on, deleting never
raises; deleting an absent name is a no-op (already-absent is not an
error); after a first delete the second is a no-op. -/
theorem guardedUnlink_idempotent (s : BlobStore) (n : String)
    (h : n ∉ s.ioFail) :
    ∃ s' : BlobStore,
      s.guardedUnlink n = Except.ok s' ∧
      s'.guardedUnlink n = Except.ok s' ∧
      (s.existsName n = false → s' = s) := by
  by_cases hex : s.existsName n = true
  · refine ⟨s.removeBlob n, ?_, ?_, ?_⟩
    · rw [BlobStore.guardedUnlink, if_pos hex, BlobStore.unlink, if_neg h]
    · rw [BlobStore.guardedUnlink,
        removeBlob_existsName s n, if_neg (by simp)]
    · intro habs; rw [hex] at habs; cases habs
  · have hex' : s.existsName n = false := by simpa using hex
    refine ⟨s, ?_, ?_, fun _ => rfl⟩ <;>
      rw [BlobStore.guardedUnlink, if_neg (by simp [hex'])]

/-- Witness for C6 at a concrete store holding one blob. -/
theorem guardedUnlink_idempotent_witness :
    "uploads/1-a.pdf" ∉ (BlobStore.mk [("uploads/1-a.pdf", [7])] []).ioFail ∧
    ∃ s' : BlobStore,
      (BlobStore.mk [("uploads/1-a.pdf", [7])] []).guardedUnlink "uploads/1-a.pdf" = Except.ok s' ∧
      s'.guardedUnlink "uploads/1-a.pdf" = Except.ok s' ∧
      ((BlobStore.mk [("uploads/1-a.pdf", [7])] []).existsName "uploads/1-a.pdf" = false →
        s' = BlobStore.mk [("uploads/1-a.pdf", [7])] []) :=
  ⟨by simp,
   guardedUnlink_idempotent (BlobStore.mk [("uploads/1-a.pdf", [7])] [])
     "uploads/1-a.pdf" (by simp)⟩

/-- C7: publishing a personal record to an existing classroom answers
success, appends exactly one new record to that classroom's `files` with
the same `storageRef` (`path`) as the source record, copies no blob bytes
(the store is untouched), and leaves every user — hence the source
personal list — unchanged. -/
theorem shareToClass_spec (st : ServerState) (classId fid : String)
    (rec0 : FileRec) (now : Nat) (c : ClassroomDoc) (u : UserDoc)
    (hc : findClassroom st classId = some c)
    (_hu : u ∈ st.users) (_hrec : rec0 ∈ u.personalNotes) :
    (shareToClass st classId fid rec0 now).2 = ApiResult.ok () ∧
    (shareToClass st classId fid rec0 now).1.users = st.users ∧
    (shareToClass st classId fid rec0 now).1.store = st.store ∧
    findClassroom (shareToClass st classId fid rec0 now).1 classId =
      some { c with files := c.files ++ [⟨fid, rec0.filename, rec0.path, now⟩] } := by
  have hpc0 := List.find?_some
    (show st.classrooms.find? (fun d => d.cid == classId) = some c from hc)
  have hpc : (c.cid == classId) = true := by simpa using hpc0
  have hred : shareToClass st classId fid rec0 now =
      (updateClassroom st { c with files := c.files ++ [⟨fid, rec0.filename, rec0.path, now⟩] },
       ApiResult.ok ()) := by
    simp [shareToClass, hc]
  refine ⟨?_, ?_, ?_, ?_⟩
  · rw [hred]
  · rw [hred]; rfl
  · rw [hred]; rfl
  · rw [hred]
    exact find?_map_replace st.classrooms (fun d => d.cid == classId) c
      { c with files := c.files ++ [⟨fid, rec0.filename, rec0.path, now⟩] } hc rfl hpc

/-- Witness for C7: one teacher with one personal record, one classroom. -/
theorem shareToClass_spec_witness :
    findClassroom
        (ServerState.mk [UserDoc.mk "u1" [FileRec.mk "f1" "Notes 1.pdf" "uploads/1700-Notes_1.pdf" 1700]]
          [ClassroomDoc.mk "c1" "ABC123" ["s1"] []]
          (BlobStore.mk [("uploads/1700-Notes_1.pdf", [3, 4])] []))
        "c1" = some (ClassroomDoc.mk "c1" "ABC123" ["s1"] []) ∧
    ((shareToClass
        (ServerState.mk [UserDoc.mk "u1" [FileRec.mk "f1" "Notes 1.pdf" "uploads/1700-Notes_1.pdf" 1700]]
          [ClassroomDoc.mk "c1" "ABC123" ["s1"] []]
          (BlobStore.mk [("uploads/1700-Notes_1.pdf", [3, 4])] []))
        "c1" "f2" (FileRec.mk "f1" "Notes 1.pdf" "uploads/1700-Notes_1.pdf" 1700) 1800).2 =
          ApiResult.ok () ∧
     (shareToClass
        (ServerState.mk [UserDoc.mk "u1" [FileRec.mk "f1" "Notes 1.pdf" "uploads/1700-Notes_1.pdf" 1700]]
          [ClassroomDoc.mk "c1" "ABC123" ["s1"] []]
          (BlobStore.mk [("uploads/1700-Notes_1.pdf", [3, 4])] []))
        "c1" "f2" (FileRec.mk "f1" "Notes 1.pdf" "uploads/1700-Notes_1.pdf" 1700) 1800).1.users =
        [UserDoc.mk "u1" [FileRec.mk "f1" "Notes 1.pdf" "uploads/1700-Notes_1.pdf" 1700]] ∧
     (shareToClass
        (ServerState.mk [UserDoc.mk "u1" [FileRec.mk "f1" "Notes 1.pdf" "uploads/1700-Notes_1.pdf" 1700]]
          [ClassroomDoc.mk "c1" "ABC123" ["s1"] []]
          (BlobStore.mk [("uploads/1700-Notes_1.pdf", [3, 4])] []))
        "c1" "f2" (FileRec.mk "f1" "Notes 1.pdf" "uploads/1700-Notes_1.pdf" 1700) 1800).1.store =
        BlobStore.mk [("uploads/1700-Notes_1.pdf", [3, 4])] [] ∧
     findClassroom
        (shareToClass
          (ServerState.mk [UserDoc.mk "u1" [FileRec.mk "f1" "Notes 1.pdf" "uploads/1700-Notes_1.pdf" 1700]]
            [ClassroomDoc.mk "c1" "ABC123" ["s1"] []]
            (BlobStore.mk [("uploads/1700-Notes_1.pdf", [3, 4])] []))
          "c1" "f2" (FileRec.mk "f1" "Notes 1.pdf" "uploads/1700-Notes_1.pdf" 1700) 1800).1 "c1" =
        some (ClassroomDoc.mk "c1" "ABC123" ["s1"]
          [FileRec.mk "f2" "Notes 1.pdf" "uploads/1700-Notes_1.pdf" 1800])) :=
  ⟨rfl,
   shareToClass_spec
     (ServerState.mk [UserDoc.mk "u1" [FileRec.mk "f1" "Notes 1.pdf" "uploads/1700-Notes_1.pdf" 1700]]
       [ClassroomDoc.mk "c1" "ABC123" ["s1"] []]
       (BlobStore.mk [("uploads/1700-Notes_1.pdf", [3, 4])] []))
     "c1" "f2" (FileRec.mk "f1" "Notes 1.pdf" "uploads/1700-Notes_1.pdf" 1700) 1800
     (ClassroomDoc.mk "c1" "ABC123" ["s1"] [])
     (UserDoc.mk "u1" [FileRec.mk "f1" "Notes 1.pdf" "uploads/1700-Notes_1.pdf" 1700])
     rfl (by simp) (by simp)⟩

/-- C10: joining a class is idempotent on the `students` list: the route
answers the classroom in both cases; when the student id is already
enrolled nothing changes at all, otherwise the id is appended exactly once,
so join-class never makes an id appear twice. -/
theorem joinClass_idempotent (st : ServerState) (studentId classCode : String)
    (c : ClassroomDoc) (hc : findClassroomByCode st classCode = some c) :
    (joinClass st studentId classCode).2 = ApiResult.ok () ∧
    (c.students.contains studentId = true →
      joinClass st studentId classCode = (st, ApiResult.ok ())) ∧
    (c.students.contains studentId = false →
      ∃ c' : ClassroomDoc,
        findClassroomByCode (joinClass st studentId classCode).1 classCode = some c' ∧
        c'.students = c.students ++ [studentId] ∧
        c'.students.count studentId = c.students.count studentId + 1 ∧
        (c.students.count studentId = 0 → c'.students.count studentId = 1)) := by
  have hpc0 := List.find?_some
    (show st.classrooms.find? (fun d => d.code == classCode) = some c from hc)
  have hpc : (c.code == classCode) = true := by simpa using hpc0
  by_cases hmem : c.students.contains studentId = true
  · have hm : studentId ∈ c.students := by
      have := hmem
      simpa using this
    have hred : joinClass st studentId classCode = (st, ApiResult.ok ()) := by
      simp [joinClass, hc, hm]
    refine ⟨by rw [hred], fun _ => hred, fun habs => ?_⟩
    rw [hmem] at habs
    cases habs
  · have hmem' : c.students.contains studentId = false := by
      simpa using hmem
    have hm : studentId ∉ c.students := by
      have := hmem'
      simpa using this
    have hred : joinClass st studentId classCode =
        (updateClassroom st { c with students := c.students ++ [studentId] },
         ApiResult.ok ()) := by
      simp [joinClass, hc, hm]
    refine ⟨by rw [hred], fun habs => ?_, fun _ => ?_⟩
    · rw [habs] at hmem'; cases hmem'
    · refine ⟨{ c with students := c.students ++ [studentId] }, ?_, rfl, ?_, ?_⟩
      · rw [hred]
        exact find?_map_replace st.classrooms (fun d => d.code == classCode) c
          { c with students := c.students ++ [studentId] } hc rfl hpc
      · simp
      · intro h0; simp [h0]

/-- Witness for C10: joining with a fresh student id appends it once. -/
theorem joinClass_idempotent_witness :
    findClassroomByCode
        (ServerState.mk [] [ClassroomDoc.mk "c1" "ABC123" ["s1"] []] (BlobStore.mk [] []))
        "ABC123" = some (ClassroomDoc.mk "c1" "ABC123" ["s1"] []) ∧
    ((ClassroomDoc.mk "c1" "ABC123" ["s1"] []).students.contains "s2" = false →
      ∃ c' : ClassroomDoc,
        findClassroomByCode
          (joinClass
            (ServerState.mk [] [ClassroomDoc.mk "c1" "ABC123" ["s1"] []] (BlobStore.mk [] []))
            "s2" "ABC123").1 "ABC123" = some c' ∧
        c'.students = ["s1"] ++ ["s2"] ∧
        c'.students.count "s2" = (["s1"] : List String).count "s2" + 1 ∧
        ((["s1"] : List String).count "s2" = 0 → c'.students.count "s2" = 1)) :=
  ⟨rfl,
   (joinClass_idempotent
     (ServerState.mk [] [ClassroomDoc.mk "c1" "ABC123" ["s1"] []] (BlobStore.mk [] []))
     "s2" "ABC123" (ClassroomDoc.mk "c1" "ABC123" ["s1"] []) rfl).2.2⟩

/-- C2 counterexample: with one classroom holding one record whose blob
exists but whose `unlinkSync` raises, the delete route answers 500 and the
record is **not** removed — the `IOError` is surfaced as a request failure,
not swallowed, contradicting the claim that the operation still removes
the record and reports success. -/
theorem deleteClassFile_ioError_counterexample :
    deleteClassFile
        (ServerState.mk []
          [ClassroomDoc.mk "c1" "ABC123" [] [FileRec.mk "f1" "a.pdf" "uploads/1-a.pdf" 1]]
          (BlobStore.mk [("uploads/1-a.pdf", [7])] ["uploads/1-a.pdf"]))
        "c1" "f1" =
      (ServerState.mk []
        [ClassroomDoc.mk "c1" "ABC123" [] [FileRec.mk "f1" "a.pdf" "uploads/1-a.pdf" 1]]
        (BlobStore.mk [("uploads/1-a.pdf", [7])] ["uploads/1-a.pdf"]),
       ApiResult.serverError) := by
  rfl

/-- C2 (amended): on an existing container and record the blob delete is
attempted before the catalog removal, but when `unlinkSync` raises an
`IOError` the route's `catch` aborts the whole request: the File Record
stays in the container's list (the state is unchanged) and the caller gets
a 500 failure instead of success. -/
theorem deleteClassFile_ioError_aborts (st : ServerState)
    (classId fileId : String) (c : ClassroomDoc) (i : Nat) (f : FileRec)
    (hc : findClassroom st classId = some c)
    (hi : c.files.findIdx? (fun g => g.fid == fileId) = some i)
    (hf : c.files.get? i = some f)
    (hex : st.store.existsName f.path = true)
    (hfail : f.path ∈ st.store.ioFail) :
    deleteClassFile st classId fileId = (st, ApiResult.serverError) := by
  have hguard : st.store.guardedUnlink f.path = Except.error () := by
    rw [BlobStore.guardedUnlink, if_pos hex, BlobStore.unlink, if_pos hfail]
  have hf2 : c.files[i]? = some f := by simpa using hf
  simp [deleteClassFile, deleteFileFrom, hc, hi, hf2, hguard]

/-- Witness for C2's amended theorem at the counterexample's input. -/
theorem deleteClassFile_ioError_aborts_witness :
    findClassroom
        (ServerState.mk []
          [ClassroomDoc.mk "c1" "ABC123" [] [FileRec.mk "f1" "a.pdf" "uploads/1-a.pdf" 1]]
          (BlobStore.mk [("uploads/1-a.pdf", [7])] ["uploads/1-a.pdf"]))
        "c1" = some (ClassroomDoc.mk "c1" "ABC123" [] [FileRec.mk "f1" "a.pdf" "uploads/1-a.pdf" 1]) ∧
    deleteClassFile
        (ServerState.mk []
          [ClassroomDoc.mk "c1" "ABC123" [] [FileRec.mk "f1" "a.pdf" "uploads/1-a.pdf" 1]]
          (BlobStore.mk [("uploads/1-a.pdf", [7])] ["uploads/1-a.pdf"]))
        "c1" "f1" =
      (ServerState.mk []
        [ClassroomDoc.mk "c1" "ABC123" [] [FileRec.mk "f1" "a.pdf" "uploads/1-a.pdf" 1]]
        (BlobStore.mk [("uploads/1-a.pdf", [7])] ["uploads/1-a.pdf"]),
       ApiResult.serverError) :=
  ⟨rfl,
   deleteClassFile_ioError_aborts
     (ServerState.mk []
       [ClassroomDoc.mk "c1" "ABC123" [] [FileRec.mk "f1" "a.pdf" "uploads/1-a.pdf" 1]]
       (BlobStore.mk [("uploads/1-a.pdf", [7])] ["uploads/1-a.pdf"]))
     "c1" "f1" (ClassroomDoc.mk "c1" "ABC123" [] [FileRec.mk "f1" "a.pdf" "uploads/1-a.pdf" 1])
     0 (FileRec.mk "f1" "a.pdf" "uploads/1-a.pdf" 1) rfl rfl rfl rfl (by simp)⟩

/-- C8 counterexample: renaming in a nonexistent classroom answers 500
(`classroom.files.id` throws on `null` and the `catch` replies
`err.message`), not the 404 `NotFound` the claim requires for an absent
container. -/
theorem renameClassFile_absent_container_counterexample :
    renameClassFile (ServerState.mk [] [] (BlobStore.mk [] [])) "c1" "f1" "new.pdf" =
      (ServerState.mk [] [] (BlobStore.mk [] []), ApiResult.serverError) ∧
    (ApiResult.serverError : ApiResult Unit) ≠ ApiResult.notFound "Class not found" := by
  exact ⟨rfl, by simp⟩

/-- C8 (amended): renaming an existing record in an existing classroom
mutates only that record's `filename` (`originalName`) — its `_id`, `path`
(`storageRef`) and `uploadDate` (`createdAt`), every other record, the
users and the blob store are unchanged — and an absent record answers
`NotFound`; but an absent classroom makes the handler throw, answering an
internal error (500), not `NotFound`. -/
theorem renameClassFile_spec (st : ServerState) (classId fileId newName : String) :
    (findClassroom st classId = none →
      renameClassFile st classId fileId newName = (st, ApiResult.serverError)) ∧
    (∀ c : ClassroomDoc, findClassroom st classId = some c →
      c.files.find? (fun g => g.fid == fileId) = none →
      renameClassFile st classId fileId newName = (st, ApiResult.notFound "File not found")) ∧
    (∀ c : ClassroomDoc, ∀ f : FileRec, findClassroom st classId = some c →
      c.files.find? (fun g => g.fid == fileId) = some f →
      ((renameClassFile st classId fileId newName).2 = ApiResult.ok () ∧
       (renameClassFile st classId fileId newName).1.users = st.users ∧
       (renameClassFile st classId fileId newName).1.store = st.store ∧
       ∃ c' : ClassroomDoc,
         findClassroom (renameClassFile st classId fileId newName).1 classId = some c' ∧
         c'.cid = c.cid ∧ c'.code = c.code ∧ c'.students = c.students ∧
         c'.files.length = c.files.length ∧
         ∀ j : Nat, ∀ hj : j < c.files.length, ∀ hj2 : j < c'.files.length,
           ((c'.files.get ⟨j, hj2⟩).fid = (c.files.get ⟨j, hj⟩).fid ∧
            (c'.files.get ⟨j, hj2⟩).path = (c.files.get ⟨j, hj⟩).path ∧
            (c'.files.get ⟨j, hj2⟩).uploadDate = (c.files.get ⟨j, hj⟩).uploadDate ∧
            (((c.files.get ⟨j, hj⟩).fid == fileId) = false →
              (c'.files.get ⟨j, hj2⟩).filename = (c.files.get ⟨j, hj⟩).filename) ∧
            (((c.files.get ⟨j, hj⟩).fid == fileId) = true →
              (c'.files.get ⟨j, hj2⟩).filename = newName)))) := by
  refine ⟨?_, ?_, ?_⟩
  · intro hc
    simp [renameClassFile, hc]
  · intro c hc hf
    simp [renameClassFile, hc, hf]
  · intro c f hc hf
    have hpc0 := List.find?_some
      (show st.classrooms.find? (fun d => d.cid == classId) = some c from hc)
    have hpc : (c.cid == classId) = true := by simpa using hpc0
    have hred : renameClassFile st classId fileId newName =
        (updateClassroom st { c with files := renameIn c.files fileId newName },
         ApiResult.ok ()) := by
      simp [renameClassFile, hc, hf]
    refine ⟨by rw [hred], by rw [hred]; rfl, by rw [hred]; rfl, ?_⟩
    refine ⟨{ c with files := renameIn c.files fileId newName }, ?_, rfl, rfl, rfl, ?_, ?_⟩
    · rw [hred]
      exact find?_map_replace st.classrooms (fun d => d.cid == classId) c
        { c with files := renameIn c.files fileId newName } hc rfl hpc
    · simp [renameIn]
    · intro j hj hj2
      have hget : (renameIn c.files fileId newName).get ⟨j, hj2⟩ =
          (if ((c.files.get ⟨j, hj⟩).fid == fileId) = true
            then { (c.files.get ⟨j, hj⟩) with filename := newName }
            else c.files.get ⟨j, hj⟩) := by
        simp [renameIn, List.get_eq_getElem, List.getElem_map]
      by_cases hb : ((c.files.get ⟨j, hj⟩).fid == fileId) = true
      · rw [hget, if_pos hb]
        refine ⟨rfl, rfl, rfl, fun hfalse => ?_, fun _ => rfl⟩
        rw [hb] at hfalse
        cases hfalse
      · rw [hget, if_neg hb]
        exact ⟨rfl, rfl, rfl, fun _ => rfl, fun htrue => absurd htrue hb⟩

/-- Witness for C8's amended theorem: a classroom with two records; the
first is renamed, the second untouched. -/
theorem renameClassFile_spec_witness :
    findClassroom
        (ServerState.mk []
          [ClassroomDoc.mk "c1" "ABC123" []
            [FileRec.mk "f1" "a.pdf" "uploads/1-a.pdf" 1,
             FileRec.mk "f2" "b.pdf" "uploads/2-b.pdf" 2]]
          (BlobStore.mk [("uploads/1-a.pdf", [7]), ("uploads/2-b.pdf", [8])] []))
        "c1" = some (ClassroomDoc.mk "c1" "ABC123" []
          [FileRec.mk "f1" "a.pdf" "uploads/1-a.pdf" 1,
           FileRec.mk "f2" "b.pdf" "uploads/2-b.pdf" 2]) ∧
    ((renameClassFile
        (ServerState.mk []
          [ClassroomDoc.mk "c1" "ABC123" []
            [FileRec.mk "f1" "a.pdf" "uploads/1-a.pdf" 1,
             FileRec.mk "f2" "b.pdf" "uploads/2-b.pdf" 2]]
          (BlobStore.mk [("uploads/1-a.pdf", [7]), ("uploads/2-b.pdf", [8])] []))
        "c1" "f1" "new.pdf").2 = ApiResult.ok () ∧
     (renameClassFile
        (ServerState.mk []
          [ClassroomDoc.mk "c1" "ABC123" []
            [FileRec.mk "f1" "a.pdf" "uploads/1-a.pdf" 1,
             FileRec.mk "f2" "b.pdf" "uploads/2-b.pdf" 2]]
          (BlobStore.mk [("uploads/1-a.pdf", [7]), ("uploads/2-b.pdf", [8])] []))
        "c1" "f1" "new.pdf").1.store =
       BlobStore.mk [("uploads/1-a.pdf", [7]), ("uploads/2-b.pdf", [8])] []) :=
  ⟨rfl,
   And.intro
     ((renameClassFile_spec
        (ServerState.mk []
          [ClassroomDoc.mk "c1" "ABC123" []
            [FileRec.mk "f1" "a.pdf" "uploads/1-a.pdf" 1,
             FileRec.mk "f2" "b.pdf" "uploads/2-b.pdf" 2]]
          (BlobStore.mk [("uploads/1-a.pdf", [7]), ("uploads/2-b.pdf", [8])] []))
        "c1" "f1" "new.pdf").2.2
       (ClassroomDoc.mk "c1" "ABC123" []
         [FileRec.mk "f1" "a.pdf" "uploads/1-a.pdf" 1,
          FileRec.mk "f2" "b.pdf" "uploads/2-b.pdf" 2])
       (FileRec.mk "f1" "a.pdf" "uploads/1-a.pdf" 1) rfl rfl).1
     ((renameClassFile_spec
        (ServerState.mk []
          [ClassroomDoc.mk "c1" "ABC123" []
            [FileRec.mk "f1" "a.pdf" "uploads/1-a.pdf" 1,
             FileRec.mk "f2" "b.pdf" "uploads/2-b.pdf" 2]]
          (BlobStore.mk [("uploads/1-a.pdf", [7]), ("uploads/2-b.pdf", [8])] []))
        "c1" "f1" "new.pdf").2.2
       (ClassroomDoc.mk "c1" "ABC123" []
         [FileRec.mk "f1" "a.pdf" "uploads/1-a.pdf" 1,
          FileRec.mk "f2" "b.pdf" "uploads/2-b.pdf" 2])
       (FileRec.mk "f1" "a.pdf" "uploads/1-a.pdf" 1) rfl rfl).2.2.1⟩

/-- C3 counterexample: uploading to a nonexistent classroom id answers 404
`NotFound`, yet the blob **is** on disk: multer wrote the file before the
handler's container check, contradicting "uploadToClassroom on a
nonexistent classroom id writes no blob". -/
theorem uploadToClassroom_notFound_writes_blob_counterexample :
    (uploadToClassroom (ServerState.mk [] [] (BlobStore.mk [] [])) "c1" "f1"
        "a.pdf" [1, 2, 3] 5).2 = ApiResult.notFound "Class not found" ∧
    (uploadToClassroom (ServerState.mk [] [] (BlobStore.mk [] [])) "c1" "f1"
        "a.pdf" [1, 2, 3] 5).1.store.existsName "uploads/5-a.pdf" = true := by
  exact ⟨rfl, rfl⟩

/-- C3 (amended): every route checks the owning container; an absent
container yields 404 `NotFound` — except the variant-3 delete and rename
handlers, which throw on the `null` classroom and answer 500 — and in all
cases no catalog list (users or classrooms) is changed; but for the upload
routes multer has already written the blob before the check, so the failed
upload leaves the blob in the store. -/
theorem notFound_validation_spec (st : ServerState) :
    (∀ classId fid name : String, ∀ bytes : List Nat, ∀ now : Nat,
      findClassroom st classId = none → bytes.length ≤ uploadCap →
      ((uploadToClassroom st classId fid name bytes now).2 =
          ApiResult.notFound "Class not found" ∧
       (uploadToClassroom st classId fid name bytes now).1.users = st.users ∧
       (uploadToClassroom st classId fid name bytes now).1.classrooms = st.classrooms ∧
       (uploadToClassroom st classId fid name bytes now).1.store.existsName
         ("uploads/" ++ generateStorageName name now) = true)) ∧
    (∀ classId fid : String, ∀ fd : FileRec, ∀ now : Nat,
      findClassroom st classId = none →
      shareToClass st classId fid fd now = (st, ApiResult.notFound "Class not found")) ∧
    (∀ classId fileId : String, findClassroom st classId = none →
      deleteClassFile st classId fileId = (st, ApiResult.notFound "Class not found")) ∧
    (∀ classId fileId : String, findClassroom st classId = none →
      deleteClassFileNoCheck st classId fileId = (st, ApiResult.serverError)) ∧
    (∀ classId fileId newName : String, findClassroom st classId = none →
      renameClassFile st classId fileId newName = (st, ApiResult.serverError)) ∧
    (∀ userId ufid name : String, ∀ bytes : List Nat, ∀ now : Nat,
      findUser st userId = none →
      ((uploadToPersonal st userId ufid name bytes now).2 =
          ApiResult.notFound "User not found" ∧
       (uploadToPersonal st userId ufid name bytes now).1.users = st.users ∧
       (uploadToPersonal st userId ufid name bytes now).1.classrooms = st.classrooms ∧
       (uploadToPersonal st userId ufid name bytes now).1.store.existsName
         ("uploads/" ++ generateStorageName name now) = true)) ∧
    (∀ userId : String, findUser st userId = none →
      listPersonalNotes st userId = ApiResult.notFound "User not found") := by
  refine ⟨?_, ?_, ?_, ?_, ?_, ?_, ?_⟩
  · intro classId fid name bytes now hc hlen
    have hnot : ¬ bytes.length > uploadCap := Nat.not_lt.mpr hlen
    have hing : multerIngest st (some uploadCap) name bytes now =
        Except.ok (ingestState st name bytes now, storedPathOf name now) := by
      simp [multerIngest, hnot]
    have hc2 : findClassroom (ingestState st name bytes now) classId = none := hc
    refine ⟨?_, ?_, ?_, ?_⟩ <;>
      first
      | (simp only [uploadToClassroom, hing, hc2]
         try simp [ingestState, storedPathOf, put_existsName])
  · intro classId fid fd now hc
    simp [shareToClass, hc]
  · intro classId fileId hc
    simp [deleteClassFile, hc]
  · intro classId fileId hc
    simp [deleteClassFileNoCheck, hc]
  · intro classId fileId newName hc
    simp [renameClassFile, hc]
  · intro userId ufid name bytes now hu
    have hing : multerIngest st none name bytes now =
        Except.ok (ingestState st name bytes now, storedPathOf name now) := by
      simp [multerIngest]
    have hu2 : findUser (ingestState st name bytes now) userId = none := hu
    refine ⟨?_, ?_, ?_, ?_⟩ <;>
      first
      | (simp only [uploadToPersonal, hing, hu2]
         try simp [ingestState, storedPathOf, put_existsName])
  · intro userId hu
    simp [listPersonalNotes, hu]

/-- Witness for C3's amended theorem: the empty catalog. -/
theorem notFound_validation_spec_witness :
    findClassroom (ServerState.mk [] [] (BlobStore.mk [] [])) "c1" = none ∧
    ([1, 2, 3] : List Nat).length ≤ uploadCap ∧
    ((uploadToClassroom (ServerState.mk [] [] (BlobStore.mk [] [])) "c1" "f1"
        "a.pdf" [1, 2, 3] 5).2 = ApiResult.notFound "Class not found" ∧
     (uploadToClassroom (ServerState.mk [] [] (BlobStore.mk [] [])) "c1" "f1"
        "a.pdf" [1, 2, 3] 5).1.users = [] ∧
     (uploadToClassroom (ServerState.mk [] [] (BlobStore.mk [] [])) "c1" "f1"
        "a.pdf" [1, 2, 3] 5).1.classrooms = [] ∧
     (uploadToClassroom (ServerState.mk [] [] (BlobStore.mk [] [])) "c1" "f1"
        "a.pdf" [1, 2, 3] 5).1.store.existsName
       ("uploads/" ++ generateStorageName "a.pdf" 5) = true) ∧
    shareToClass (ServerState.mk [] [] (BlobStore.mk [] [])) "c1" "f9"
        (FileRec.mk "f1" "a.pdf" "uploads/5-a.pdf" 5) 6 =
      (ServerState.mk [] [] (BlobStore.mk [] []), ApiResult.notFound "Class not found") :=
  ⟨rfl, by norm_num [uploadCap],
   (notFound_validation_spec (ServerState.mk [] [] (BlobStore.mk [] []))).1
     "c1" "f1" "a.pdf" [1, 2, 3] 5 rfl (by norm_num [uploadCap]),
   (notFound_validation_spec (ServerState.mk [] [] (BlobStore.mk [] []))).2.1
     "c1" "f9" (FileRec.mk "f1" "a.pdf" "uploads/5-a.pdf" 5) 6 rfl⟩

/-- C4 counterexample: a personal upload of `uploadCap + 1` bytes (one
over 10 MiB) does **not** fail `PayloadTooLarge`: variant 2's
`multer({ storage })` has no `limits`, so the route succeeds, the blob is
written under the generated name and a record is appended to the user's
personal list. -/
theorem oversize_personal_upload_succeeds_counterexample :
    (List.replicate (uploadCap + 1) 0).length > uploadCap ∧
    (uploadToPersonal (ServerState.mk [UserDoc.mk "u1" []] [] (BlobStore.mk [] []))
        "u1" "f1" "a.pdf" (List.replicate (uploadCap + 1) 0) 5).2 = ApiResult.ok () ∧
    (uploadToPersonal (ServerState.mk [UserDoc.mk "u1" []] [] (BlobStore.mk [] []))
        "u1" "f1" "a.pdf" (List.replicate (uploadCap + 1) 0) 5).1.users =
      [UserDoc.mk "u1" [FileRec.mk "f1" "a.pdf" "uploads/5-a.pdf" 5]] ∧
    (uploadToPersonal (ServerState.mk [UserDoc.mk "u1" []] [] (BlobStore.mk [] []))
        "u1" "f1" "a.pdf" (List.replicate (uploadCap + 1) 0) 5).1.store.existsName
      "uploads/5-a.pdf" = true :=
  ⟨by simp, rfl, rfl, rfl⟩

/-- C4 (amended): only the classroom-upload route of variant 1 (the multer
configured with `limits: { fileSize: 10 MiB }`) enforces the cap — an
oversize upload there fails `PayloadTooLarge` with nothing committed: no
blob, no record, the state unchanged.  The personal-upload route's multer
has no limits, so the same oversize payload is accepted there: the route
answers success and appends a record to the user's personal list. -/
theorem uploadCap_classroom_only (st : ServerState) (classId fid name : String)
    (bytes : List Nat) (now : Nat) (h : bytes.length > uploadCap) :
    uploadToClassroom st classId fid name bytes now = (st, ApiResult.payloadTooLarge) ∧
    (∀ userId ufid : String, ∀ u : UserDoc, findUser st userId = some u →
      ((uploadToPersonal st userId ufid name bytes now).2 = ApiResult.ok () ∧
       (uploadToPersonal st userId ufid name bytes now).1.store.existsName
         (storedPathOf name now) = true ∧
       { u with personalNotes := u.personalNotes ++ [⟨ufid, name, storedPathOf name now, now⟩] }
         ∈ (uploadToPersonal st userId ufid name bytes now).1.users)) := by
  constructor
  · have hing : multerIngest st (some uploadCap) name bytes now = Except.error () := by
      simp [multerIngest, h]
    simp [uploadToClassroom, hing]
  · intro userId ufid u hu
    have hing : multerIngest st none name bytes now =
        Except.ok (ingestState st name bytes now, storedPathOf name now) := by
      simp [multerIngest]
    have hu2 : findUser (ingestState st name bytes now) userId = some u := hu
    have humem : u ∈ st.users :=
      List.mem_of_find?_eq_some
        (show st.users.find? (fun d => d.uid == userId) = some u from hu)
    refine ⟨?_, ?_, ?_⟩
    · simp only [uploadToPersonal, hing, hu2]
    · simp only [uploadToPersonal, hing, hu2]
      simp [updateUser, ingestState, storedPathOf, put_existsName]
    · simp only [uploadToPersonal, hing, hu2]
      simp only [updateUser, ingestState]
      have := List.mem_map_of_mem
        (fun d => if d.uid == u.uid
          then { u with personalNotes := u.personalNotes ++ [⟨ufid, name, storedPathOf name now, now⟩] }
          else d) humem
      simpa using this

/-- Witness for C4's amended theorem at an oversize payload. -/
theorem uploadCap_classroom_only_witness :
    (List.replicate (uploadCap + 1) 0).length > uploadCap ∧
    uploadToClassroom (ServerState.mk [UserDoc.mk "u1" []] [] (BlobStore.mk [] []))
        "c1" "f1" "a.pdf" (List.replicate (uploadCap + 1) 0) 5 =
      (ServerState.mk [UserDoc.mk "u1" []] [] (BlobStore.mk [] []),
       ApiResult.payloadTooLarge) ∧
    (uploadToPersonal (ServerState.mk [UserDoc.mk "u1" []] [] (BlobStore.mk [] []))
        "u1" "f9" "a.pdf" (List.replicate (uploadCap + 1) 0) 5).2 = ApiResult.ok () :=
  ⟨by simp,
   (uploadCap_classroom_only (ServerState.mk [UserDoc.mk "u1" []] [] (BlobStore.mk [] []))
     "c1" "f1" "a.pdf" (List.replicate (uploadCap + 1) 0) 5
     (by simp)).1,
   ((uploadCap_classroom_only (ServerState.mk [UserDoc.mk "u1" []] [] (BlobStore.mk [] []))
     "c1" "f9" "a.pdf" (List.replicate (uploadCap + 1) 0) 5
     (by simp)).2
     "u1" "f9" (UserDoc.mk "u1" []) rfl).1⟩

/-- C1 (code behaviour at the failing input): publish the personal record
`"Notes 1.pdf"` (path `uploads/1700-Notes_1.pdf`) to classroom `c1`, then
delete the shared copy through the delete route.  The route unconditionally
unlinks the blob, so afterwards the user's personal record still references
`uploads/1700-Notes_1.pdf` but the blob no longer exists — retrieval
through the surviving copy fails, contradicting the claim that deleting
either copy leaves the shared blob retrievable. -/
theorem publish_then_delete_loses_shared_blob :
    (shareToClass
        (ServerState.mk
          [UserDoc.mk "u1" [FileRec.mk "f1" "Notes 1.pdf" "uploads/1700-Notes_1.pdf" 1700]]
          [ClassroomDoc.mk "c1" "ABC123" [] []]
          (BlobStore.mk [("uploads/1700-Notes_1.pdf", [1, 2, 3])] []))
        "c1" "f2" (FileRec.mk "f1" "Notes 1.pdf" "uploads/1700-Notes_1.pdf" 1700) 1800).2 =
      ApiResult.ok () ∧
    (deleteClassFileNoCheck
        (shareToClass
          (ServerState.mk
            [UserDoc.mk "u1" [FileRec.mk "f1" "Notes 1.pdf" "uploads/1700-Notes_1.pdf" 1700]]
            [ClassroomDoc.mk "c1" "ABC123" [] []]
            (BlobStore.mk [("uploads/1700-Notes_1.pdf", [1, 2, 3])] []))
          "c1" "f2" (FileRec.mk "f1" "Notes 1.pdf" "uploads/1700-Notes_1.pdf" 1700) 1800).1
        "c1" "f2").2 = ApiResult.ok () ∧
    (deleteClassFileNoCheck
        (shareToClass
          (ServerState.mk
            [UserDoc.mk "u1" [FileRec.mk "f1" "Notes 1.pdf" "uploads/1700-Notes_1.pdf" 1700]]
            [ClassroomDoc.mk "c1" "ABC123" [] []]
            (BlobStore.mk [("uploads/1700-Notes_1.pdf", [1, 2, 3])] []))
          "c1" "f2" (FileRec.mk "f1" "Notes 1.pdf" "uploads/1700-Notes_1.pdf" 1700) 1800).1
        "c1" "f2").1.users =
      [UserDoc.mk "u1" [FileRec.mk "f1" "Notes 1.pdf" "uploads/1700-Notes_1.pdf" 1700]] ∧
    (deleteClassFileNoCheck
        (shareToClass
          (ServerState.mk
            [UserDoc.mk "u1" [FileRec.mk "f1" "Notes 1.pdf" "uploads/1700-Notes_1.pdf" 1700]]
            [ClassroomDoc.mk "c1" "ABC123" [] []]
            (BlobStore.mk [("uploads/1700-Notes_1.pdf", [1, 2, 3])] []))
          "c1" "f2" (FileRec.mk "f1" "Notes 1.pdf" "uploads/1700-Notes_1.pdf" 1700) 1800).1
        "c1" "f2").1.store.existsName "uploads/1700-Notes_1.pdf" = false := by
  exact ⟨rfl, rfl, rfl, rfl⟩

/-- `unlinkFold` over fault-free names removes exactly the listed names and
reports success. -/
theorem unlinkFold_no_fault (s : BlobStore) (names : List String)
    (h : ∀ n ∈ names, n ∉ s.ioFail) :
    unlinkFold s names =
      ({ s with blobs := s.blobs.filter (fun b => !(names.contains b.1)) }, true) := by
  induction names generalizing s with
  | nil =>
    simp [unlinkFold]
  | cons n ns ih =>
    have hn : n ∉ s.ioFail := h n (by simp)
    have hns : ∀ m ∈ ns, m ∉ (s.removeBlob n).ioFail := by
      intro m hm
      rw [removeBlob_ioFail]
      exact h m (by simp [hm])
    rw [unlinkFold, if_neg hn, ih (s.removeBlob n) hns]
    have hblobs : (s.removeBlob n).blobs.filter (fun b => !(ns.contains b.1)) =
        s.blobs.filter (fun b => !((n :: ns).contains b.1)) := by
      show (s.blobs.filter (fun b => b.1 != n)).filter (fun b => !(ns.contains b.1)) =
        s.blobs.filter (fun b => !((n :: ns).contains b.1))
      rw [List.filter_filter]
      refine List.filter_congr ?_
      intro b _
      by_cases hbn : b.1 = n
      · simp [hbn]
      · simp [hbn, Bool.and_comm]
    simp only [removeBlob_ioFail]
    rw [hblobs]

/-- C9 counterexample: the repository's only teardown is the global
`GET /reset`.  Applied to a catalog with two classrooms, a user, and the
second classroom's blob, it wipes **everything** — classroom `c2`, its
blob, and all users — so it is not a `deleteClassroom(classroomId)` that
removes one Classroom entity and only its blobs. -/
theorem reset_is_global_not_per_classroom_counterexample :
    reset
        (ServerState.mk [UserDoc.mk "u1" []]
          [ClassroomDoc.mk "c1" "AAAAAA" [] [],
           ClassroomDoc.mk "c2" "BBBBBB" [] [FileRec.mk "f2" "b.pdf" "uploads/9-b.pdf" 9]]
          (BlobStore.mk [("uploads/9-b.pdf", [1])] [])) =
      (ServerState.mk [] [] (BlobStore.mk [] []), ApiResult.ok ()) := by
  rfl

/-- C9 (amended): the code has no per-classroom `deleteClassroom`; its only
teardown is the global `/reset`, which removes every User and every
Classroom from the catalog and then unlinks every file in the upload
directory.  When no unlink faults, the store is emptied (so every
referenced blob is cascade-deleted) and the route answers success; the
unlink loop is not guarded, so a fault would surface as an unhandled
error. -/
theorem reset_teardown_spec (st : ServerState)
    (h : ∀ b ∈ st.store.blobs, b.1 ∉ st.store.ioFail) :
    reset st =
      (ServerState.mk [] [] (BlobStore.mk [] st.store.ioFail), ApiResult.ok ()) := by
  have hnames : ∀ n ∈ st.store.blobs.map (fun b => b.1), n ∉ st.store.ioFail := by
    intro n hn
    rcases List.mem_map.mp hn with ⟨b, hb, rfl⟩
    exact h b hb
  have hfold := unlinkFold_no_fault st.store (st.store.blobs.map (fun b => b.1)) hnames
  have hempty : st.store.blobs.filter
      (fun b => !((st.store.blobs.map (fun x => x.1)).contains b.1)) = [] := by
    rw [List.filter_eq_nil_iff]
    intro b hb
    have hmem : b.1 ∈ st.store.blobs.map (fun x => x.1) :=
      List.mem_map_of_mem (fun x => x.1) hb
    simp [hmem]
  rw [reset]
  simp only [hfold, hempty]
  rfl

/-- Witness for C9's amended theorem: a state with one classroom, its one
blob, and no faults is torn down completely. -/
theorem reset_teardown_spec_witness :
    (∀ b ∈ (BlobStore.mk [("uploads/9-b.pdf", [1])] []).blobs,
      b.1 ∉ (BlobStore.mk [("uploads/9-b.pdf", [1])] []).ioFail) ∧
    reset
        (ServerState.mk []
          [ClassroomDoc.mk "c2" "BBBBBB" [] [FileRec.mk "f2" "b.pdf" "uploads/9-b.pdf" 9]]
          (BlobStore.mk [("uploads/9-b.pdf", [1])] [])) =
      (ServerState.mk [] [] (BlobStore.mk [] []), ApiResult.ok ()) :=
  ⟨by simp,
   reset_teardown_spec
     (ServerState.mk []
       [ClassroomDoc.mk "c2" "BBBBBB" [] [FileRec.mk "f2" "b.pdf" "uploads/9-b.pdf" 9]]
       (BlobStore.mk [("uploads/9-b.pdf", [1])] [])) (by simp)⟩

end SmartStroke
